import Mathlib

/-!
Verification of the travel-agent repository against its specification.

The repository is a NestJS starter kit (auth strategy, env validation,
Prisma error mapping, Redis wrapper, user CRUD) together with a design
specification for a planned Session Stream Relay subsystem (event
multiplexer, execution state store, interrupt/approval coordinator).
The code-level components are embedded shallowly from the TypeScript
sources; the relay subsystem, absent from the sources, is modelled from
the specification text.
-/

set_option autoImplicit false

/-- HTTP-level exceptions thrown by the NestJS layer, as used in
`api-response.decorator.ts`.  Each constructor corresponds to a NestJS
exception class; `httpException` carries an explicit status code, as in
`new HttpException(msg, status)`. -/
inductive HttpError where
  | badRequest (msg : String)
  | unauthorized (msg : String)
  | forbidden (msg : String)
  | notFound (msg : String)
  | conflict (msg : String)
  | requestTimeout (msg : String)
  | payloadTooLarge (msg : String)
  | internalServerError (msg : String)
  | serviceUnavailable (msg : String)
  | httpException (msg : String) (status : Nat)
  deriving Repr, DecidableEq

/-- The two Prisma exception classes handled by the filter declared with
`@Catch(Prisma.PrismaClientKnownRequestError, Prisma.PrismaClientValidationError)`
in `api-response.decorator.ts`. -/
inductive PrismaException where
  | knownRequestError (code : String)
  | validationError (message : String)
  deriving Repr, DecidableEq

set_option maxHeartbeats 1000000

/-- The `switch (code)` table of `PrismaClientExceptionFilter.catch`
(`api-response.decorator.ts`, lines 44-461), in source order: each Prisma
error code paired with the NestJS exception thrown for it. -/
def prismaErrorTable : List (String × HttpError) :=
  [ ("P1000", HttpError.unauthorized "Authentication failed against database server. Invalid database credentials provided."),
    ("P1001", HttpError.serviceUnavailable "Cannot reach database server. Please ensure your database server is running."),
    ("P1002", HttpError.serviceUnavailable "Database server connection timed out. Please try again."),
    ("P1003", HttpError.notFound "Database does not exist at the specified path."),
    ("P1008", HttpError.requestTimeout "Database operation timed out. Please try again."),
    ("P1009", HttpError.conflict "Database already exists on the database server."),
    ("P1010", HttpError.forbidden "Database user was denied access to the database."),
    ("P1011", HttpError.serviceUnavailable "Error opening a TLS connection to the database."),
    ("P1012", HttpError.badRequest "Invalid Prisma schema. Please check your schema configuration."),
    ("P1013", HttpError.badRequest "The provided database connection string is invalid."),
    ("P1014", HttpError.notFound "The underlying table or collection does not exist."),
    ("P1015", HttpError.badRequest "Your Prisma schema is using features not supported by your database version."),
    ("P1016", HttpError.badRequest "Raw query has an incorrect number of parameters. Expected parameters do not match actual."),
    ("P1017", HttpError.serviceUnavailable "Server has closed the connection."),
    ("P2000", HttpError.badRequest "The provided value is too long for the column."),
    ("P2001", HttpError.notFound "The record searched for in the where condition does not exist."),
    ("P2002", HttpError.conflict "Unique constraint failed. A record with this value already exists."),
    ("P2003", HttpError.conflict "Foreign key constraint failed on the specified field."),
    ("P2004", HttpError.conflict "A constraint failed on the database."),
    ("P2005", HttpError.badRequest "The value stored in the database is invalid for the field type."),
    ("P2006", HttpError.badRequest "The provided value for the field is not valid."),
    ("P2007", HttpError.badRequest "Data validation error encountered."),
    ("P2008", HttpError.badRequest "Failed to parse the query."),
    ("P2009", HttpError.badRequest "Failed to validate the query."),
    ("P2010", HttpError.badRequest "Raw query failed to execute."),
    ("P2011", HttpError.badRequest "Null constraint violation on the specified constraint."),
    ("P2012", HttpError.badRequest "Missing a required value."),
    ("P2013", HttpError.badRequest "Missing required argument for field."),
    ("P2014", HttpError.conflict "The change would violate a required relation between models."),
    ("P2015", HttpError.notFound "A related record could not be found."),
    ("P2016", HttpError.badRequest "Query interpretation error."),
    ("P2017", HttpError.conflict "Records for the relation are not connected."),
    ("P2018", HttpError.notFound "Required connected records were not found."),
    ("P2019", HttpError.badRequest "Input error encountered."),
    ("P2020", HttpError.badRequest "Value is out of range for the type."),
    ("P2021", HttpError.notFound "The table does not exist in the current database."),
    ("P2022", HttpError.notFound "The column does not exist in the current database."),
    ("P2023", HttpError.badRequest "Inconsistent column data encountered."),
    ("P2024", HttpError.serviceUnavailable "Timed out fetching a new connection from the connection pool."),
    ("P2025", HttpError.notFound "An operation failed because required records were not found."),
    ("P2026", HttpError.badRequest "The current database provider does not support a feature used in the query."),
    ("P2027", HttpError.internalServerError "Multiple errors occurred on the database during query execution."),
    ("P2028", HttpError.internalServerError "Transaction API error."),
    ("P2029", HttpError.badRequest "Query parameter limit exceeded."),
    ("P2030", HttpError.badRequest "Cannot find a fulltext index to use for the search."),
    ("P2031", HttpError.badRequest "MongoDB server must be run as a replica set for transactions."),
    ("P2033", HttpError.badRequest "Number used in query does not fit into a 64 bit signed integer."),
    ("P2034", HttpError.conflict "Transaction failed due to a write conflict or deadlock. Please retry."),
    ("P2035", HttpError.internalServerError "Assertion violation on the database."),
    ("P2036", HttpError.internalServerError "Error in external connector."),
    ("P2037", HttpError.serviceUnavailable "Too many database connections opened."),
    ("P3000", HttpError.internalServerError "Failed to create database."),
    ("P3001", HttpError.badRequest "Migration is possible with destructive changes and possible data loss."),
    ("P3002", HttpError.internalServerError "The attempted migration was rolled back."),
    ("P3003", HttpError.badRequest "The format of migrations has changed and is no longer valid."),
    ("P3004", HttpError.badRequest "Cannot alter a system database."),
    ("P3005", HttpError.badRequest "The database schema is not empty."),
    ("P3006", HttpError.internalServerError "Migration failed to apply cleanly to the shadow database."),
    ("P3007", HttpError.badRequest "Preview features are not allowed in schema engine. Please remove them from your data model."),
    ("P3008", HttpError.conflict "The migration is already recorded as applied in the database."),
    ("P3009", HttpError.internalServerError "Failed migrations found in target database. Cannot apply new migrations."),
    ("P3010", HttpError.badRequest "Migration name is too long. Must not exceed 200 characters."),
    ("P3011", HttpError.badRequest "Migration cannot be rolled back because it was never applied."),
    ("P3012", HttpError.badRequest "Migration cannot be rolled back because it is not in a failed state."),
    ("P3013", HttpError.badRequest "Datasource provider arrays are no longer supported in migrate."),
    ("P3014", HttpError.internalServerError "Could not create shadow database. Ensure the database user has permission to create databases."),
    ("P3015", HttpError.notFound "Migration file not found."),
    ("P3016", HttpError.internalServerError "Database reset failed. Could not clean up database entirely."),
    ("P3017", HttpError.notFound "The migration could not be found."),
    ("P3018", HttpError.internalServerError "A migration failed to apply. Cannot apply new migrations."),
    ("P3019", HttpError.badRequest "Datasource provider in schema does not match the one in migration_lock.toml."),
    ("P3020", HttpError.badRequest "Automatic shadow database creation is disabled on Azure SQL. Please set up manually."),
    ("P3021", HttpError.badRequest "Foreign keys cannot be created on this database."),
    ("P3022", HttpError.badRequest "Direct execution of DDL SQL statements is disabled on this database."),
    ("P3023", HttpError.badRequest "ExternalTables and externalEnums must contain fully qualified identifiers."),
    ("P3024", HttpError.badRequest "ExternalTables and externalEnums must contain simple identifiers without schema names."),
    ("P4000", HttpError.internalServerError "Introspection operation failed to produce a schema file."),
    ("P4001", HttpError.notFound "The introspected database was empty."),
    ("P4002", HttpError.badRequest "The schema of the introspected database was inconsistent."),
    ("P5011", HttpError.httpException "Request volume exceeded the limit. Implement a back-off strategy and try again." 429),
    ("P6000", HttpError.internalServerError "Generic Accelerate error."),
    ("P6001", HttpError.badRequest "The Accelerate URL is malformed. Must use prisma:// protocol."),
    ("P6002", HttpError.unauthorized "The API Key in the connection string is invalid."),
    ("P6003", HttpError.httpException "Plan limit has been reached. Included usage exceeded." 402),
    ("P6004", HttpError.requestTimeout "Global timeout of Accelerate has been exceeded."),
    ("P6005", HttpError.badRequest "Invalid parameters supplied to Accelerate."),
    ("P6006", HttpError.badRequest "The chosen Prisma version is not compatible with Accelerate."),
    ("P6008", HttpError.serviceUnavailable "Engine failed to start. Could not establish connection to database."),
    ("P6009", HttpError.payloadTooLarge "Response size limit of Accelerate has been exceeded."),
    ("P6010", HttpError.forbidden "Your Accelerate project is disabled. Please enable it to use.") ]

/-- The exception thrown by the `default:` branch of the switch. -/
def prismaDefaultError : HttpError :=
  .internalServerError "An unexpected database error occurred."

/-- `PrismaClientExceptionFilter.catch` (`api-response.decorator.ts`):
a known request error is dispatched through the `switch (code)` table
(default branch for codes outside it); a validation error becomes a
`BadRequestException` with the prefixed message. -/
def PrismaClientExceptionFilter.catchException : PrismaException → HttpError
  | .knownRequestError code =>
      ((prismaErrorTable.lookup code).getD prismaDefaultError)
  | .validationError message =>
      .badRequest ("Database validation error: " ++ message)

/-- C8: `PrismaClientExceptionFilter.catch` maps every known request error
through the `switch (code)` table alone — in particular P2002 to
`ConflictException` and any code outside the table to
`InternalServerErrorException` — and maps every Prisma validation error to
`BadRequestException`. -/
theorem C8_prisma_filter_maps_by_code (code msg : String) :
    PrismaClientExceptionFilter.catchException (.knownRequestError code)
        = ((prismaErrorTable.lookup code).getD prismaDefaultError)
    ∧ PrismaClientExceptionFilter.catchException (.knownRequestError "P2002")
        = .conflict "Unique constraint failed. A record with this value already exists."
    ∧ (prismaErrorTable.lookup code = none →
        PrismaClientExceptionFilter.catchException (.knownRequestError code)
          = .internalServerError "An unexpected database error occurred.")
    ∧ PrismaClientExceptionFilter.catchException (.validationError msg)
        = .badRequest ("Database validation error: " ++ msg) := by
  refine ⟨rfl, by rfl, ?_, rfl⟩
  intro h
  simp [PrismaClientExceptionFilter.catchException, h, prismaDefaultError]

/-- Witness for C8 at the unlisted code P9999 and a concrete validation
message. -/
theorem C8_prisma_filter_maps_by_code_witness :
    prismaErrorTable.lookup "P9999" = none
    ∧ PrismaClientExceptionFilter.catchException (.knownRequestError "P9999")
        = .internalServerError "An unexpected database error occurred."
    ∧ PrismaClientExceptionFilter.catchException (.validationError "bad input")
        = .badRequest "Database validation error: bad input" :=
  ⟨by rfl, (C8_prisma_filter_maps_by_code "P9999" "bad input").2.2.1 (by rfl),
    (C8_prisma_filter_maps_by_code "P9999" "bad input").2.2.2⟩

/-! ### Environment validation (`env.config.ts`, claim C7)

`validateEnv` receives the object produced by `plainToInstance` (the
transformed configuration).  A field annotated `@IsString @IsNotEmpty` is
modelled as `Option String` (`none` = missing/undefined); the implicit
numeric conversion of `PORT` is modelled as `Option Int` (`none` = the
conversion produced NaN, which `@IsNumber` rejects).  The library URL
predicate behind `@IsUrl` is taken as a parameter `isUrl`. -/

/-- The `Environment` enum of `env.config.ts`: the values accepted by
`@IsEnum(Environment)` for `NODE_ENV`. -/
def environmentValues : List String := ["development", "production", "test"]

/-- Transformed configuration instance of class `EnvironmentVariables`
(`env.config.ts`), with the class's field defaults. -/
structure EnvironmentVariables where
  NODE_ENV : String := "development"
  PORT : Option Int := some 3000
  DATABASE_URL : Option String := none
  CLERK_PUBLISHABLE_KEY : Option String := none
  CLERK_SECRET_KEY : Option String := none
  CLERK_JWKS_URL : Option String := none
  CLERK_WEBHOOK_SECRET : Option String := none
  REDIS_URL : Option String := none
  deriving Repr, DecidableEq

/-- `@IsEnum(Environment)` check on `NODE_ENV`. -/
def isEnumEnvironment (s : String) : Bool :=
  environmentValues.contains s

/-- `@IsNumber() @Min(1)` check on `PORT`. -/
def portValid (p : Option Int) : Bool :=
  match p with
  | some n => decide (1 ≤ n)
  | none => false

/-- `@IsString() @IsNotEmpty()` check on a required string field. -/
def isNonEmptyString (v : Option String) : Bool :=
  match v with
  | some s => !s.isEmpty
  | none => false

/-- `@IsUrl(...) @IsNotEmpty()` check on a required URL field. -/
def urlValid (isUrl : String → Bool) (v : Option String) : Bool :=
  match v with
  | some s => isUrl s && !s.isEmpty
  | none => false

/-- `@IsUrl(...) @IsOptional()` check on `REDIS_URL`: a missing value is
accepted, a present value must be a URL. -/
def optionalUrlValid (isUrl : String → Bool) (v : Option String) : Bool :=
  match v with
  | some s => isUrl s
  | none => true

/-- The per-property constraint outcomes of
`validateSync(validatedConfig, skipMissingProperties: false)`, in class
field order. -/
def constraintChecks (isUrl : String → Bool) (c : EnvironmentVariables) :
    List (String × Bool) :=
  [ ("NODE_ENV", isEnumEnvironment c.NODE_ENV),
    ("PORT", portValid c.PORT),
    ("DATABASE_URL", isNonEmptyString c.DATABASE_URL),
    ("CLERK_PUBLISHABLE_KEY", isNonEmptyString c.CLERK_PUBLISHABLE_KEY),
    ("CLERK_SECRET_KEY", isNonEmptyString c.CLERK_SECRET_KEY),
    ("CLERK_JWKS_URL", urlValid isUrl c.CLERK_JWKS_URL),
    ("CLERK_WEBHOOK_SECRET", isNonEmptyString c.CLERK_WEBHOOK_SECRET),
    ("REDIS_URL", optionalUrlValid isUrl c.REDIS_URL) ]

/-- The properties reported by `validateSync`: those whose constraints
fail. -/
def validationErrors (isUrl : String → Bool) (c : EnvironmentVariables) :
    List String :=
  ((constraintChecks isUrl c).filter (fun p => !p.2)).map Prod.fst

/-- `validateEnv` (`env.config.ts`, lines 58-76): throws
`Error("Invalid environment variables")` when `validateSync` reports at
least one error, otherwise returns the transformed configuration. -/
def validateEnv (isUrl : String → Bool) (config : EnvironmentVariables) :
    Except String EnvironmentVariables :=
  if validationErrors isUrl config = [] then .ok config
  else .error "Invalid environment variables"

/-- A failed constraint on a required string field puts its property name
among the reported validation errors. -/
theorem mem_validationErrors_DATABASE_URL (isUrl : String → Bool)
    (c : EnvironmentVariables) (h : isNonEmptyString c.DATABASE_URL = false) :
    "DATABASE_URL" ∈ validationErrors isUrl c := by
  refine List.mem_map.mpr ⟨("DATABASE_URL", isNonEmptyString c.DATABASE_URL),
    List.mem_filter.mpr ⟨?_, by simp [h]⟩, rfl⟩
  simp [constraintChecks]

/-- A failed `@IsEnum` constraint on `NODE_ENV` puts `NODE_ENV` among the
reported validation errors. -/
theorem mem_validationErrors_NODE_ENV (isUrl : String → Bool)
    (c : EnvironmentVariables) (h : isEnumEnvironment c.NODE_ENV = false) :
    "NODE_ENV" ∈ validationErrors isUrl c := by
  refine List.mem_map.mpr ⟨("NODE_ENV", isEnumEnvironment c.NODE_ENV),
    List.mem_filter.mpr ⟨?_, by simp [h]⟩, rfl⟩
  simp [constraintChecks]

/-- C7: `validateEnv` returns the transformed configuration exactly when
every class-validator constraint holds, and throws
`Error("Invalid environment variables")` exactly when at least one
constraint fails — in particular when `DATABASE_URL` is missing or
`NODE_ENV` is not a member of the `Environment` enum. -/
theorem C7_validateEnv_iff_constraints (isUrl : String → Bool)
    (c : EnvironmentVariables) :
    (validateEnv isUrl c = .ok c ↔ validationErrors isUrl c = [])
    ∧ (validateEnv isUrl c = .error "Invalid environment variables"
        ↔ validationErrors isUrl c ≠ [])
    ∧ (c.DATABASE_URL = none →
        validateEnv isUrl c = .error "Invalid environment variables")
    ∧ (isEnumEnvironment c.NODE_ENV = false →
        validateEnv isUrl c = .error "Invalid environment variables") := by
  refine ⟨?_, ?_, ?_, ?_⟩
  · unfold validateEnv
    by_cases h : validationErrors isUrl c = [] <;> simp [h]
  · unfold validateEnv
    by_cases h : validationErrors isUrl c = [] <;> simp [h]
  · intro hd
    have hmem := mem_validationErrors_DATABASE_URL isUrl c (by simp [isNonEmptyString, hd])
    unfold validateEnv
    simp [List.ne_nil_of_mem hmem]
  · intro hn
    have hmem := mem_validationErrors_NODE_ENV isUrl c hn
    unfold validateEnv
    simp [List.ne_nil_of_mem hmem]

/-- Witness for C7: a configuration with `DATABASE_URL` missing and
`NODE_ENV` set to `staging` is rejected with the exact error message. -/
theorem C7_validateEnv_iff_constraints_witness :
    validateEnv (fun s => s.startsWith "http")
        { NODE_ENV := "staging", DATABASE_URL := none }
      = .error "Invalid environment variables" :=
  (C7_validateEnv_iff_constraints (fun s => s.startsWith "http")
    { NODE_ENV := "staging", DATABASE_URL := none }).2.2.1 rfl

/-! ### Redis service (`redis.service.ts`, claim C10)

The connection state of the `RedisService` instance is the triple of
`this.client !== null`, `this.client.isReady` and `this.isConnected`.
Each public data operation first calls `getClientOrThrow` and only then
sends its command(s) to the client, so an operation is modelled as the
pair of its thrown-or-ok outcome and the list of Redis commands it
issues. -/

/-- Connection-relevant state of a `RedisService` instance. -/
structure RedisState where
  clientPresent : Bool
  clientIsReady : Bool
  isConnected : Bool
  deriving Repr, DecidableEq

/-- Commands the service can send to the underlying Redis client. -/
inductive RedisCommand where
  | get (key : String)
  | set (key value : String)
  | setWithExpiry (key value : String) (seconds : Nat)
  | del (key : String)
  | existsKey (key : String)
  | expire (key : String) (seconds : Nat)
  | ttl (key : String)
  | hSet (key field value : String)
  | hGet (key field : String)
  | hGetAll (key : String)
  | hDel (key field : String)
  | hKeys (key : String)
  | hVals (key : String)
  | hLen (key : String)
  | flushAll
  | keys (pat : String)
  | dbSize
  | info (s : Option String)
  deriving Repr, DecidableEq

/-- The `BadRequestException` thrown by `getClientOrThrow`. -/
def redisUnavailableError : HttpError :=
  .badRequest "Redis client is not connected or initialized"

/-- `RedisService.getClientOrThrow` (`redis.service.ts`):
`if (!this.client?.isReady || !this.isConnected) throw BadRequestException`.
The optional chain `this.client?.isReady` is falsy when the client is
absent or not ready. -/
def RedisService.getClientOrThrow (s : RedisState) : Except HttpError Unit :=
  if !(s.clientPresent && s.clientIsReady) || !s.isConnected then
    .error redisUnavailableError
  else .ok ()

/-- `RedisService.isAvailable` (`redis.service.ts`):
`this.isConnected && this.client?.isReady === true`. -/
def RedisService.isAvailable (s : RedisState) : Bool :=
  s.isConnected && (s.clientPresent && s.clientIsReady)

/-- Shape shared by every public data operation: call `getClientOrThrow`,
then issue the operation's command(s). -/
def runRedisOp (s : RedisState) (cmds : List RedisCommand) :
    Except HttpError Unit × List RedisCommand :=
  match RedisService.getClientOrThrow s with
  | .error e => (.error e, [])
  | .ok _ => (.ok (), cmds)

/-- `RedisService.get`. -/
def RedisService.get (s : RedisState) (key : String) :
    Except HttpError Unit × List RedisCommand :=
  runRedisOp s [.get key]

/-- `RedisService.set`: `if (ttl)` (a falsy check, so `ttl = 0` behaves
like no TTL) selects `SET key value EX ttl` over plain `SET`. -/
def RedisService.set (s : RedisState) (key value : String) (ttl : Option Nat) :
    Except HttpError Unit × List RedisCommand :=
  runRedisOp s
    (match ttl with
      | some t => if t != 0 then [.setWithExpiry key value t] else [.set key value]
      | none => [.set key value])

/-- `RedisService.del`. -/
def RedisService.del (s : RedisState) (key : String) :
    Except HttpError Unit × List RedisCommand :=
  runRedisOp s [.del key]

/-- `RedisService.exists` (renamed: `exists` is reserved in Lean). -/
def RedisService.existsKey (s : RedisState) (key : String) :
    Except HttpError Unit × List RedisCommand :=
  runRedisOp s [.existsKey key]

/-- `RedisService.expire`. -/
def RedisService.expire (s : RedisState) (key : String) (seconds : Nat) :
    Except HttpError Unit × List RedisCommand :=
  runRedisOp s [.expire key seconds]

/-- `RedisService.ttl`. -/
def RedisService.ttl (s : RedisState) (key : String) :
    Except HttpError Unit × List RedisCommand :=
  runRedisOp s [.ttl key]

/-- `RedisService.hset`. -/
def RedisService.hset (s : RedisState) (key field value : String) :
    Except HttpError Unit × List RedisCommand :=
  runRedisOp s [.hSet key field value]

/-- `RedisService.hget`. -/
def RedisService.hget (s : RedisState) (key field : String) :
    Except HttpError Unit × List RedisCommand :=
  runRedisOp s [.hGet key field]

/-- `RedisService.hgetall`. -/
def RedisService.hgetall (s : RedisState) (key : String) :
    Except HttpError Unit × List RedisCommand :=
  runRedisOp s [.hGetAll key]

/-- `RedisService.hdel`. -/
def RedisService.hdel (s : RedisState) (key field : String) :
    Except HttpError Unit × List RedisCommand :=
  runRedisOp s [.hDel key field]

/-- `RedisService.hkeys`. -/
def RedisService.hkeys (s : RedisState) (key : String) :
    Except HttpError Unit × List RedisCommand :=
  runRedisOp s [.hKeys key]

/-- `RedisService.hvals`. -/
def RedisService.hvals (s : RedisState) (key : String) :
    Except HttpError Unit × List RedisCommand :=
  runRedisOp s [.hVals key]

/-- `RedisService.hlen`. -/
def RedisService.hlen (s : RedisState) (key : String) :
    Except HttpError Unit × List RedisCommand :=
  runRedisOp s [.hLen key]

/-- `RedisService.flushAll`. -/
def RedisService.flushAll (s : RedisState) :
    Except HttpError Unit × List RedisCommand :=
  runRedisOp s [.flushAll]

/-- `RedisService.keys`. -/
def RedisService.keys (s : RedisState) (pat : String) :
    Except HttpError Unit × List RedisCommand :=
  runRedisOp s [.keys pat]

/-- `RedisService.dbSize`. -/
def RedisService.dbSize (s : RedisState) :
    Except HttpError Unit × List RedisCommand :=
  runRedisOp s [.dbSize]

/-- `RedisService.info`. -/
def RedisService.info (s : RedisState) (sec : Option String) :
    Except HttpError Unit × List RedisCommand :=
  runRedisOp s [.info sec]

/-- An operation outcome that threw the unavailability
`BadRequestException` and issued no Redis command. -/
def throwsWithoutCommand (r : Except HttpError Unit × List RedisCommand) :
    Prop :=
  r.1 = .error redisUnavailableError ∧ r.2 = []

/-- Every operation of the `runRedisOp` shape throws the unavailability
exception and issues no command exactly when `isAvailable` is `false`. -/
theorem runRedisOp_unavailable (s : RedisState) (cmds : List RedisCommand) :
    RedisService.isAvailable s = false ↔ throwsWithoutCommand (runRedisOp s cmds) := by
  rcases s with ⟨p, r, c⟩
  cases p <;> cases r <;> cases c <;>
    simp [RedisService.isAvailable, runRedisOp, RedisService.getClientOrThrow,
      throwsWithoutCommand, redisUnavailableError]

/-- C10: every public data operation of `RedisService` throws
`BadRequestException` and issues no Redis command exactly when
`isAvailable()` returns `false` (client absent, not ready, or not
connected). -/
theorem C10_redis_ops_guarded (s : RedisState) (key field value pat : String)
    (ttl : Option Nat) (seconds : Nat) (sec : Option String) :
    (RedisService.isAvailable s = false ↔ throwsWithoutCommand (RedisService.get s key))
    ∧ (RedisService.isAvailable s = false ↔ throwsWithoutCommand (RedisService.set s key value ttl))
    ∧ (RedisService.isAvailable s = false ↔ throwsWithoutCommand (RedisService.del s key))
    ∧ (RedisService.isAvailable s = false ↔ throwsWithoutCommand (RedisService.existsKey s key))
    ∧ (RedisService.isAvailable s = false ↔ throwsWithoutCommand (RedisService.expire s key seconds))
    ∧ (RedisService.isAvailable s = false ↔ throwsWithoutCommand (RedisService.ttl s key))
    ∧ (RedisService.isAvailable s = false ↔ throwsWithoutCommand (RedisService.hset s key field value))
    ∧ (RedisService.isAvailable s = false ↔ throwsWithoutCommand (RedisService.hget s key field))
    ∧ (RedisService.isAvailable s = false ↔ throwsWithoutCommand (RedisService.hgetall s key))
    ∧ (RedisService.isAvailable s = false ↔ throwsWithoutCommand (RedisService.hdel s key field))
    ∧ (RedisService.isAvailable s = false ↔ throwsWithoutCommand (RedisService.hkeys s key))
    ∧ (RedisService.isAvailable s = false ↔ throwsWithoutCommand (RedisService.hvals s key))
    ∧ (RedisService.isAvailable s = false ↔ throwsWithoutCommand (RedisService.hlen s key))
    ∧ (RedisService.isAvailable s = false ↔ throwsWithoutCommand (RedisService.flushAll s))
    ∧ (RedisService.isAvailable s = false ↔ throwsWithoutCommand (RedisService.keys s pat))
    ∧ (RedisService.isAvailable s = false ↔ throwsWithoutCommand (RedisService.dbSize s))
    ∧ (RedisService.isAvailable s = false ↔ throwsWithoutCommand (RedisService.info s sec)) :=
  ⟨runRedisOp_unavailable s _, runRedisOp_unavailable s _, runRedisOp_unavailable s _,
    runRedisOp_unavailable s _, runRedisOp_unavailable s _, runRedisOp_unavailable s _,
    runRedisOp_unavailable s _, runRedisOp_unavailable s _, runRedisOp_unavailable s _,
    runRedisOp_unavailable s _, runRedisOp_unavailable s _, runRedisOp_unavailable s _,
    runRedisOp_unavailable s _, runRedisOp_unavailable s _, runRedisOp_unavailable s _,
    runRedisOp_unavailable s _, runRedisOp_unavailable s _⟩

/-! ### Clerk strategy (`clerk.strategy.ts`, claim C6)

`ClerkStrategy.validate` extracts the bearer token from the
`authorization` header, verifies it against the JWKS-backed verifier, and
returns `{ decodedToken }`.  The per-request user-sync block in the
source is commented out, so the active code never touches the injected
`UserService` or the database; side effects are tracked explicitly as a
list so that their absence is a provable statement. -/

/-- Decoded JWT payload; its contents are opaque to the strategy. -/
structure DecodedToken where
  sub : String
  claims : List (String × String) := []
  deriving Repr, DecidableEq

/-- Observable side effects of request validation: calls into the
injected `UserService` and database writes. -/
inductive AuthEffect where
  | userServiceCall (method : String)
  | databaseWrite
  deriving Repr, DecidableEq

/-- The object returned by `validate` on success: `{ decodedToken }`,
with no further fields. -/
structure ValidateResult where
  decodedToken : DecodedToken
  deriving Repr, DecidableEq

/-- JavaScript `String.prototype.split` with a one-character separator,
over the character list: always returns at least one (possibly empty)
piece. -/
def splitChars (sep : Char) : List Char → List (List Char)
  | [] => [[]]
  | c :: cs =>
    match splitChars sep cs with
    | [] => [[c]]
    | h :: t => if c = sep then [] :: h :: t else (c :: h) :: t

/-- JavaScript `s.split(sep)` for a one-character separator. -/
def jsSplit (s : String) (sep : Char) : List String :=
  (splitChars sep s.toList).map (fun l => String.mk l)

/-- `req.headers.authorization?.split(' ').pop()`: `none` when the
header is absent; otherwise the last space-separated part (possibly the
empty string, which the subsequent falsy check rejects). -/
def tokenFromRequest (authorization : Option String) : Option String :=
  authorization.bind (fun h => (jsSplit h ' ').getLast?)

/-- `ClerkStrategy.validate` (`clerk.strategy.ts`, lines 37-77): throws
`UnauthorizedException('No token provided')` when the extracted token is
missing or falsy, throws `UnauthorizedException('Invalid token')` when
verification rejects, and otherwise returns `{ decodedToken }`.  The
second component lists the side effects performed (none on any path: the
sync-on-each-request block is commented out). -/
def ClerkStrategy.validate (authorization : Option String)
    (verify : String → Except String DecodedToken) :
    Except HttpError ValidateResult × List AuthEffect :=
  match tokenFromRequest authorization with
  | none => (.error (.unauthorized "No token provided"), [])
  | some t =>
    if t.isEmpty then (.error (.unauthorized "No token provided"), [])
    else
      match verify t with
      | .error _ => (.error (.unauthorized "Invalid token"), [])
      | .ok decoded => (.ok { decodedToken := decoded }, [])

/-- C6: the checked-in per-request user-sync behavior is inactive — on
every request whose bearer token verifies successfully,
`ClerkStrategy.validate` returns exactly `{ decodedToken }` and performs
no `UserService` call and no database write; moreover no code path of
`validate` performs any side effect at all. -/
theorem C6_clerk_validate_no_sync (authorization : Option String)
    (verify : String → Except String DecodedToken) (t : String)
    (d : DecodedToken) (ht : tokenFromRequest authorization = some t)
    (hne : t.isEmpty = false) (hv : verify t = .ok d) :
    ClerkStrategy.validate authorization verify = (.ok { decodedToken := d }, [])
    ∧ ∀ (a : Option String) (v : String → Except String DecodedToken),
        (ClerkStrategy.validate a v).2 = [] := by
  constructor
  · unfold ClerkStrategy.validate
    rw [ht]
    simp [hne, hv]
  · intro a v
    unfold ClerkStrategy.validate
    rcases tokenFromRequest a with _ | t'
    · rfl
    · by_cases h : t'.isEmpty
      · simp [h]
      · simp only [h, Bool.false_eq_true, if_false]
        rcases v t' with _ | d' <;> rfl

/-- Witness for C6: a request carrying `Bearer tok` under a verifier
accepting exactly `tok`. -/
theorem C6_clerk_validate_no_sync_witness :
    ClerkStrategy.validate (some "Bearer tok")
        (fun s => if s = "tok" then .ok { sub := "user_1" } else .error "bad")
      = (.ok { decodedToken := { sub := "user_1" } }, []) :=
  (C6_clerk_validate_no_sync (some "Bearer tok")
    (fun s => if s = "tok" then .ok { sub := "user_1" } else .error "bad")
    "tok" { sub := "user_1" } (by decide) (by decide) (by simp)).1

/-! ### User service (`user.service.ts`, claim C9)

`UserService.createUser` first looks the user up by Clerk id and returns
the existing record unchanged when found; only when absent does it
extract email and name from the webhook payload and insert a new row.
The user table is a list of rows, and the Prisma operations performed are
tracked as a list. -/

/-- A row of the `user` table. -/
structure User where
  id : String
  email : String
  name : Option String
  deriving Repr, DecidableEq

/-- The `user` table. -/
abbrev UserTable := List User

/-- An entry of the webhook payload's `email_addresses` array. -/
structure EmailAddress where
  id : String
  email_address : String
  deriving Repr, DecidableEq

/-- The webhook payload fields `UserService` reads (`ClerkUser` in
`webhook/interfaces`). -/
structure ClerkUser where
  id : String
  email_addresses : List EmailAddress
  primary_email_address_id : Option String
  first_name : Option String
  last_name : Option String
  deriving Repr, DecidableEq

/-- Prisma operations issued by the service. -/
inductive DbOp where
  | findUnique (id : String)
  | create (id : String)
  | update (id : String)
  | delete (id : String)
  deriving Repr, DecidableEq

/-- `UserService.extractEmailFromWebhook`: the address whose id matches
`primary_email_address_id`, defaulting to the empty string. -/
def extractEmailFromWebhook (userData : ClerkUser) : String :=
  match userData.email_addresses.find?
      (fun e => some e.id == userData.primary_email_address_id) with
  | some e => e.email_address
  | none => ""

/-- `UserService.extractNameFromWebhook`: trimmed concatenation of first
and last name, `null` when blank. -/
def extractNameFromWebhook (userData : ClerkUser) : Option String :=
  let firstName := userData.first_name.getD ""
  let lastName := userData.last_name.getD ""
  let fullName := (firstName ++ " " ++ lastName).trim
  if fullName.isEmpty then none else some fullName

/-- `UserService.findUserById`: `prisma.user.findUnique(where: id)`. -/
def UserService.findUserById (clerkId : String) (db : UserTable) :
    Option User :=
  db.find? (fun u => u.id == clerkId)

/-- Return shape of the user-service methods (`IUser` in
`user.service.ts`). -/
structure IUser where
  user : User
  toBeSynced : Option Bool := none
  deriving Repr, DecidableEq

/-- `UserService.createUser` (`user.service.ts`, lines 24-46): returns
the existing record wrapped as `{ user }` when one exists, otherwise
creates a row from the extracted email and name.  Result components:
the returned `IUser`, the table after the call, and the Prisma
operations performed. -/
def UserService.createUser (clerkId : String) (webhookPayload : ClerkUser)
    (db : UserTable) : IUser × UserTable × List DbOp :=
  match UserService.findUserById clerkId db with
  | some existingUser => ({ user := existingUser }, db, [.findUnique clerkId])
  | none =>
    let email := extractEmailFromWebhook webhookPayload
    let name := extractNameFromWebhook webhookPayload
    let user : User := { id := clerkId, email := email, name := name }
    ({ user := user }, db ++ [user], [.findUnique clerkId, .create clerkId])

/-- Appending a row with the looked-up id to a table without it makes
the lookup find exactly that row. -/
theorem findUserById_append_self (clerkId : String) (u : User)
    (db : UserTable) (hnone : UserService.findUserById clerkId db = none)
    (hid : u.id = clerkId) :
    UserService.findUserById clerkId (db ++ [u]) = some u := by
  induction db with
  | nil => simp [UserService.findUserById, hid]
  | cons a l ih =>
    unfold UserService.findUserById at hnone ⊢
    rw [List.cons_append, List.find?_cons] at *
    by_cases ha : (a.id == clerkId) = true
    · rw [ha] at hnone
      exact absurd hnone (by simp)
    · rw [Bool.not_eq_true] at ha
      rw [ha] at hnone ⊢
      exact ih hnone

/-- `createUser` when the user already exists: lookup only, table
unchanged. -/
theorem createUser_found (clerkId : String) (payload : ClerkUser)
    (db : UserTable) (u : User)
    (h : UserService.findUserById clerkId db = some u) :
    UserService.createUser clerkId payload db
      = ({ user := u }, db, [DbOp.findUnique clerkId]) := by
  unfold UserService.createUser
  rw [h]

/-- The row `createUser` inserts when no user with the id exists. -/
def createdUser (clerkId : String) (payload : ClerkUser) : User :=
  { id := clerkId
    email := extractEmailFromWebhook payload
    name := extractNameFromWebhook payload }

/-- `createUser` when the user is absent: a row built from the extracted
email and name is appended. -/
theorem createUser_notFound (clerkId : String) (payload : ClerkUser)
    (db : UserTable)
    (h : UserService.findUserById clerkId db = none) :
    UserService.createUser clerkId payload db
      = ({ user := createdUser clerkId payload },
          db ++ [createdUser clerkId payload],
          [DbOp.findUnique clerkId, DbOp.create clerkId]) := by
  unfold UserService.createUser
  rw [h]
  rfl

/-- C9: `UserService.createUser` is idempotent — when a user with the
given Clerk id exists it returns that record as `{ user }`, performs
only the lookup (no create, no update), and leaves the table unchanged;
hence a second call with the same arguments leaves the table exactly as
one call does and performs only a lookup. -/
theorem C9_createUser_idempotent (clerkId : String) (payload : ClerkUser)
    (db : UserTable) :
    (∀ u, UserService.findUserById clerkId db = some u →
        UserService.createUser clerkId payload db
          = ({ user := u }, db, [DbOp.findUnique clerkId]))
    ∧ (UserService.createUser clerkId payload
          (UserService.createUser clerkId payload db).2.1).2.1
        = (UserService.createUser clerkId payload db).2.1
    ∧ (UserService.createUser clerkId payload
          (UserService.createUser clerkId payload db).2.1).2.2
        = [DbOp.findUnique clerkId] := by
  refine ⟨fun u hu => createUser_found clerkId payload db u hu, ?_⟩
  rcases hfind : UserService.findUserById clerkId db with _ | u
  · rw [createUser_notFound clerkId payload db hfind]
    have hafter := findUserById_append_self clerkId
      (createdUser clerkId payload) db hfind rfl
    rw [createUser_found clerkId payload _ _ hafter]
    exact ⟨rfl, rfl⟩
  · rw [createUser_found clerkId payload db u hfind]
    rw [createUser_found clerkId payload db u hfind]
    exact ⟨rfl, rfl⟩

/-- A concrete stored user row for the C9 witness. -/
def sampleUser : User :=
  { id := "clerk_1", email := "ada@example.com", name := none }

/-- A concrete webhook payload for the C9 witness. -/
def samplePayload : ClerkUser :=
  { id := "clerk_1", email_addresses := [], primary_email_address_id := none,
    first_name := none, last_name := none }

/-- Witness for C9: a one-row table already containing the user. -/
theorem C9_createUser_idempotent_witness :
    UserService.createUser "clerk_1" samplePayload [sampleUser]
      = ({ user := sampleUser }, [sampleUser], [DbOp.findUnique "clerk_1"]) :=
  (C9_createUser_idempotent "clerk_1" samplePayload [sampleUser]).1
    sampleUser (by decide)

/-! ## The Session Stream Relay (spec §2-§8)

The relay subsystem — Event Multiplexer, Execution State Store,
Interrupt/Approval Coordinator — is described by the specification but
has no implementation in the sources (the `brain/` directory holds only
a placeholder).  The definitions below are therefore modelled from the
specification text, as their doc comments state, and claims C1-C5 are
settled against this model. -/

/-- Modelled from the spec: the error taxonomy of §7.  The relay
subsystem that raises these is absent from the sources. -/
inductive RelayError where
  | notFoundError
  | authorizationError
  | conflictError
  | backpressureError
  | resourceGoneError
  | engineFailure
  | storageFailure
  deriving Repr, DecidableEq

/-- Modelled from the spec: the Event Multiplexer's live-producer state
(§3 StreamSession invariant, §4.3) — the set of threads that currently
have a live producer, plus a counter minting session tokens.  The
multiplexer is absent from the sources. -/
structure EventMux where
  liveProducers : List String
  nextToken : Nat
  deriving Repr, DecidableEq

/-- Modelled from the spec: `open(thread_id) -> StreamSession` (§4.3;
named `openSession` because `open` is reserved in Lean).  Fails with
`ConflictError` if a live producer already exists for the thread,
otherwise allocates a session token and occupies the thread's
live-producer slot. -/
def EventMux.openSession (m : EventMux) (threadId : String) :
    Except RelayError (Nat × EventMux) :=
  if threadId ∈ m.liveProducers then .error .conflictError
  else .ok (m.nextToken,
    { liveProducers := threadId :: m.liveProducers, nextToken := m.nextToken + 1 })

/-- Modelled from the spec: `close(session, reason)` (§4.3) releases the
live-producer slot for the session's thread.  The multiplexer is absent
from the sources. -/
def EventMux.close (m : EventMux) (threadId : String) : EventMux :=
  { m with liveProducers := m.liveProducers.filter (fun x => !(x == threadId)) }

/-- C1: while a live producer exists for thread T, `open(T)` fails with
`ConflictError`; after that session's `close(T)`, a subsequent `open(T)`
succeeds. -/
theorem C1_open_conflicts_until_close (m : EventMux) (t : String)
    (hlive : t ∈ m.liveProducers) :
    EventMux.openSession m t = .error .conflictError
    ∧ (EventMux.close m t).openSession t
        = .ok ((EventMux.close m t).nextToken,
            { liveProducers := t :: (EventMux.close m t).liveProducers,
              nextToken := (EventMux.close m t).nextToken + 1 }) := by
  constructor
  · simp [EventMux.openSession, hlive]
  · have hnot : t ∉ (EventMux.close m t).liveProducers := by
      simp [EventMux.close, List.mem_filter]
    simp [EventMux.openSession, hnot]

/-- Witness for C1: a multiplexer whose only live producer is thread
T1. -/
theorem C1_open_conflicts_until_close_witness :
    EventMux.openSession { liveProducers := ["T1"], nextToken := 5 } "T1"
        = .error .conflictError
    ∧ (EventMux.close { liveProducers := ["T1"], nextToken := 5 } "T1").openSession "T1"
        = .ok (5, { liveProducers := ["T1"], nextToken := 6 }) :=
  C1_open_conflicts_until_close { liveProducers := ["T1"], nextToken := 5 } "T1"
    (by decide)

/-- Modelled from the spec: the event types relayed by the multiplexer
(§4.3, §6). -/
inductive EventType where
  | status
  | content
  | tool_start
  | tool_end
  | itinerary_update
  | interrupt
  | error
  | done
  deriving Repr, DecidableEq

/-- Modelled from the spec: one structured event, carrying the
monotonically increasing per-stream sequence number assigned at publish
time (§4.3, §6). -/
structure RelayEvent where
  sequence : Nat
  etype : EventType
  data : String
  deriving Repr, DecidableEq

/-- Modelled from the spec: a stream session's event log and replay
window (§4.3).  `published` is the full sequence of events in publish
order (the event with sequence number i sits at position i once built by
`publish`); only events with sequence ≥ `windowStart` are still
retained for replay. -/
structure StreamSession where
  published : List RelayEvent
  windowStart : Nat
  deriving Repr, DecidableEq

/-- Modelled from the spec: `publish(session, event)` (§4.3) assigns the
next sequence number and appends the event. -/
def StreamSession.publish (s : StreamSession) (t : EventType)
    (payload : String) : StreamSession :=
  { s with published := s.published
      ++ [{ sequence := s.published.length, etype := t, data := payload }] }

/-- Modelled from the spec: `subscribe(session, from_sequence)` (§4.3)
delivers the in-order events starting at `from_sequence`, or fails with
`ResourceGoneError` when `from_sequence` precedes the retained replay
window. -/
def StreamSession.subscribe (s : StreamSession) (fromSequence : Nat) :
    Except RelayError (List RelayEvent) :=
  if fromSequence < s.windowStart then .error .resourceGoneError
  else .ok (s.published.drop fromSequence)

/-- Sequence numbers in a log coincide with positions, as `publish`
assigns them. -/
def numbered (l : List RelayEvent) : Prop :=
  ∀ i (h : i < l.length), (l.get ⟨i, h⟩).sequence = i

/-- `publish` preserves position-numbering of the event log. -/
theorem numbered_publish (s : StreamSession) (t : EventType)
    (payload : String) (h : numbered s.published) :
    numbered (s.publish t payload).published := by
  intro i hi
  have hi' : i < s.published.length + 1 := by
    simpa [StreamSession.publish] using hi
  rcases Nat.lt_or_ge i s.published.length with hlt | hge
  · have hx := h i hlt
    simp only [StreamSession.publish, List.get_eq_getElem] at hx ⊢
    rw [List.getElem_append_left hlt]
    exact hx
  · have hieq : i = s.published.length := by omega
    subst hieq
    simp [StreamSession.publish]

/-- C4: for a position-numbered session log, `subscribe(session, f)`
with f inside the retained window delivers exactly the suffix of the
published sequence starting at f — a contiguous, order-preserving
subsequence whose i-th event carries sequence number f + i — and with f
before the window it fails with `ResourceGoneError`. -/
theorem C4_subscribe_contiguous_suffix (s : StreamSession)
    (fromSequence : Nat) (hnum : numbered s.published) :
    (s.windowStart ≤ fromSequence →
      s.subscribe fromSequence = .ok (s.published.drop fromSequence)
      ∧ (s.published.drop fromSequence) <:+ s.published
      ∧ ∀ i (h : i < (s.published.drop fromSequence).length),
          ((s.published.drop fromSequence).get ⟨i, h⟩).sequence
            = fromSequence + i)
    ∧ (fromSequence < s.windowStart →
        s.subscribe fromSequence = .error .resourceGoneError) := by
  constructor
  · intro hwin
    refine ⟨by simp [StreamSession.subscribe, Nat.not_lt_of_ge hwin], ?_, ?_⟩
    · exact List.drop_suffix fromSequence s.published
    · intro i h
      have hlen : fromSequence + i < s.published.length := by
        have := List.length_drop fromSequence s.published
        omega
      have hget : (s.published.drop fromSequence).get ⟨i, h⟩
          = s.published.get ⟨fromSequence + i, hlen⟩ := by
        simp [List.getElem_drop]
      rw [hget]
      exact hnum (fromSequence + i) hlen
  · intro hlt
    simp [StreamSession.subscribe, hlt]

/-- A concrete three-event session for the C4 witness, with the replay
window starting at sequence 1. -/
def sessionC4 : StreamSession :=
  { published := [⟨0, .status, "a"⟩, ⟨1, .content, "b"⟩, ⟨2, .done, "c"⟩],
    windowStart := 1 }

/-- Witness for C4: subscribing from sequence 1 delivers the suffix from
event 1 on; subscribing from sequence 0, which precedes the window,
fails with `ResourceGoneError`. -/
theorem C4_subscribe_contiguous_suffix_witness :
    sessionC4.subscribe 1 = .ok [⟨1, .content, "b"⟩, ⟨2, .done, "c"⟩]
    ∧ sessionC4.subscribe 0 = .error .resourceGoneError :=
  ⟨((C4_subscribe_contiguous_suffix sessionC4 1
      (by intro i h; simp only [sessionC4, List.length_cons, List.length_nil] at h; interval_cases i <;> rfl)).1
      (by decide)).1,
    (C4_subscribe_contiguous_suffix sessionC4 0
      (by intro i h; simp only [sessionC4, List.length_cons, List.length_nil] at h; interval_cases i <;> rfl)).2
      (by decide)⟩

/-- Modelled from the spec: one committed execution checkpoint (§3):
per-thread sequence number, opaque serialized blob, integrity digest. -/
structure ExecutionCheckpoint where
  sequence : Nat
  blob : List Nat
  digest : Nat
  deriving Repr, DecidableEq

/-- Modelled from the spec: the integrity digest §4.2 computes and
stores.  Its algorithm is unspecified, so a deterministic function of
the blob stands for it. -/
def checkpointDigest (blob : List Nat) : Nat :=
  blob.foldl (fun a b => 2 * a + b + 1) 0

/-- Modelled from the spec: the Execution State Store (§4.2): per-thread
append-only checkpoint logs (newest first) and the set of threads whose
advisory append lock is currently held.  The store is absent from the
sources. -/
structure StateStore where
  logs : List (String × List ExecutionCheckpoint)
  locks : List String
  deriving Repr, DecidableEq

/-- The committed checkpoints of a thread, newest first. -/
def StateStore.checkpoints (s : StateStore) (threadId : String) :
    List ExecutionCheckpoint :=
  (s.logs.lookup threadId).getD []

/-- Modelled from the spec: `latest_checkpoint(thread_id)` (§4.2): the
highest-sequence committed checkpoint, `none` for a fresh thread. -/
def StateStore.latest_checkpoint (s : StateStore) (threadId : String) :
    Option ExecutionCheckpoint :=
  (s.checkpoints threadId).head?

/-- The current maximum committed sequence for a thread (0 when none). -/
def StateStore.maxSequence (s : StateStore) (threadId : String) : Nat :=
  ((s.checkpoints threadId).map ExecutionCheckpoint.sequence).foldr max 0

/-- Modelled from the spec: acquiring the advisory per-thread append
lock (§4.2); fails with `ConflictError` when an append for the thread is
already in flight. -/
def StateStore.beginAppend (s : StateStore) (threadId : String) :
    Except RelayError StateStore :=
  if threadId ∈ s.locks then .error .conflictError
  else .ok { s with locks := threadId :: s.locks }

/-- Modelled from the spec: committing an append (§4.2): the checkpoint
is stored at sequence max + 1 with its digest and the advisory lock is
released. -/
def StateStore.commitAppend (s : StateStore) (threadId : String)
    (blob : List Nat) : Nat × StateStore :=
  let seq := s.maxSequence threadId + 1
  let cp : ExecutionCheckpoint := ⟨seq, blob, checkpointDigest blob⟩
  (seq,
    { logs := (threadId, cp :: s.checkpoints threadId) :: s.logs,
      locks := s.locks.filter (fun x => !(x == threadId)) })

/-- Modelled from the spec: `append_checkpoint(thread_id, blob)` (§4.2):
acquire the advisory lock (`ConflictError` if an append is in flight),
then commit strictly after the current maximum sequence. -/
def StateStore.append_checkpoint (s : StateStore) (threadId : String)
    (blob : List Nat) : Except RelayError (Nat × StateStore) :=
  match s.beginAppend threadId with
  | .error e => .error e
  | .ok s1 => .ok (s1.commitAppend threadId blob)

/-- The descending contiguous sequence `[n, n-1, ..., 1]`. -/
def countdown : Nat → List Nat
  | 0 => []
  | n + 1 => (n + 1) :: countdown n

/-- A well-formed per-thread log, newest first: sequence numbers are
exactly `length, ..., 2, 1` — written in increasing append order they
are `1, 2, ..., length`, strictly increasing with no gaps and no
duplicates. -/
def wfLog (l : List ExecutionCheckpoint) : Prop :=
  l.map ExecutionCheckpoint.sequence = countdown l.length

theorem countdown_foldr_max (n : Nat) : (countdown n).foldr max 0 = n := by
  induction n with
  | zero => rfl
  | succ k ih =>
    simp only [countdown, List.foldr_cons, ih]
    exact Nat.max_eq_left (Nat.le_succ k)

/-- In a well-formed log the maximum committed sequence is the log
length. -/
theorem maxSequence_eq_length (s : StateStore) (t : String)
    (hwf : wfLog (s.checkpoints t)) :
    s.maxSequence t = (s.checkpoints t).length := by
  unfold wfLog at hwf
  unfold StateStore.maxSequence
  rw [hwf]
  exact countdown_foldr_max _

/-- Evaluation of a free (unlocked) append: the returned sequence is
max + 1 and the new checkpoint is prepended to the thread's log. -/
theorem append_checkpoint_eq (s : StateStore) (t : String) (blob : List Nat)
    (hfree : t ∉ s.locks) :
    s.append_checkpoint t blob
      = .ok (s.maxSequence t + 1,
          { logs := (t, ⟨s.maxSequence t + 1, blob, checkpointDigest blob⟩
                :: s.checkpoints t) :: s.logs,
            locks := (t :: s.locks).filter (fun x => !(x == t)) }) := by
  unfold StateStore.append_checkpoint StateStore.beginAppend
  rw [if_neg hfree]
  rfl

/-- Looking up a thread in a store whose log list starts with that
thread's binding yields exactly that binding. -/
theorem checkpoints_cons_self (logs : List (String × List ExecutionCheckpoint))
    (locks : List String) (t : String) (l : List ExecutionCheckpoint) :
    StateStore.checkpoints { logs := (t, l) :: logs, locks := locks } t = l := by
  simp [StateStore.checkpoints, List.lookup]

/-- Prepending the next-sequence checkpoint preserves log
well-formedness. -/
theorem wfLog_cons (l : List ExecutionCheckpoint) (blob : List Nat) (d : Nat)
    (hwf : wfLog l) :
    wfLog (⟨l.length + 1, blob, d⟩ :: l) := by
  unfold wfLog at *
  simp [countdown, hwf]

/-- Modelled from the spec: a run of successive `append_checkpoint`
calls for one thread: the sequence numbers returned by the successful
calls, and the final store. -/
def appendRun (t : String) : StateStore → List (List Nat) → List Nat × StateStore
  | s, [] => ([], s)
  | s, b :: bs =>
    match s.append_checkpoint t b with
    | .ok r =>
      let rest := appendRun t r.2 bs
      (r.1 :: rest.1, rest.2)
    | .error _ =>
      appendRun t s bs

/-- Successive appends from a well-formed, unlocked store return exactly
the contiguous sequence numbers `length+1, length+2, ...`. -/
theorem appendRun_range (t : String) (blobs : List (List Nat)) :
    ∀ s : StateStore, wfLog (s.checkpoints t) → t ∉ s.locks →
      (appendRun t s blobs).1
        = List.range' ((s.checkpoints t).length + 1) blobs.length := by
  induction blobs with
  | nil =>
    intro s hwf hfree
    simp [appendRun]
  | cons b bs ih =>
    intro s hwf hfree
    have hmax := maxSequence_eq_length s t hwf
    rw [appendRun, append_checkpoint_eq s t b hfree]
    have hcp : StateStore.checkpoints
        { logs := (t, ⟨s.maxSequence t + 1, b, checkpointDigest b⟩
              :: s.checkpoints t) :: s.logs,
          locks := (t :: s.locks).filter (fun x => !(x == t)) } t
        = ⟨s.maxSequence t + 1, b, checkpointDigest b⟩ :: s.checkpoints t :=
      checkpoints_cons_self _ _ _ _
    have hwf' : wfLog (StateStore.checkpoints
        { logs := (t, ⟨s.maxSequence t + 1, b, checkpointDigest b⟩
              :: s.checkpoints t) :: s.logs,
          locks := (t :: s.locks).filter (fun x => !(x == t)) } t) := by
      rw [hcp, hmax]
      exact wfLog_cons _ b _ hwf
    have hfree' : t ∉ ((t :: s.locks).filter (fun x => !(x == t))) := by
      simp [List.mem_filter]
    have := ih _ hwf' hfree'
    rw [hcp] at this
    simp only [List.length_cons, hmax] at this
    simp only [this, List.length_cons, List.range'_succ, hmax]

/-- C2: from a well-formed store with no append in flight, successive
`append_checkpoint` calls return the strictly increasing, gapless,
duplicate-free sequence numbers `length+1, length+2, ...`; and of two
concurrent append attempts for the same thread, the first (which holds
the advisory lock) commits sequence `length+1` while the second fails
with `ConflictError`. -/
theorem C2_checkpoint_sequences (s : StateStore) (t : String)
    (blobs : List (List Nat)) (blob2 : List Nat)
    (hwf : wfLog (s.checkpoints t)) (hfree : t ∉ s.locks) :
    (appendRun t s blobs).1
        = List.range' ((s.checkpoints t).length + 1) blobs.length
    ∧ ∃ s1, s.beginAppend t = .ok s1
        ∧ s1.append_checkpoint t blob2 = .error .conflictError
        ∧ (s1.commitAppend t blob2).1 = (s.checkpoints t).length + 1 := by
  refine ⟨appendRun_range t blobs s hwf hfree, ?_⟩
  refine ⟨{ s with locks := t :: s.locks }, ?_, ?_, ?_⟩
  · unfold StateStore.beginAppend
    rw [if_neg hfree]
  · unfold StateStore.append_checkpoint StateStore.beginAppend
    simp
  · have hmax := maxSequence_eq_length s t hwf
    unfold StateStore.commitAppend
    simpa [StateStore.maxSequence, StateStore.checkpoints] using hmax

/-- Witness for C2: a fresh store, three appends, then the concurrent
pair. -/
theorem C2_checkpoint_sequences_witness :
    (appendRun "T1" { logs := [], locks := [] } [[1], [2], [3]]).1 = [1, 2, 3]
    ∧ ∃ s1, StateStore.beginAppend { logs := [], locks := [] } "T1" = .ok s1
        ∧ s1.append_checkpoint "T1" [9] = .error .conflictError
        ∧ (s1.commitAppend "T1" [9]).1 = 1 :=
  C2_checkpoint_sequences { logs := [], locks := [] } "T1" [[1], [2], [3]] [9]
    (by rfl) (by decide)

/-- Modelled from the spec: availability of the durable storage backend
during an append (§7). -/
inductive StorageOutcome where
  | ok
  | failure
  deriving Repr, DecidableEq

/-- Modelled from the spec: an in-flight turn (§7, §8): the store plus
whether the turn has been marked complete. -/
structure TurnState where
  store : StateStore
  turnComplete : Bool
  deriving Repr, DecidableEq

/-- Modelled from the spec: `append_checkpoint` against the durable
backend (§4.2, §7).  On `StorageFailure` the in-flight turn is aborted:
the error is surfaced, partial progress (including the advisory lock) is
discarded, nothing is committed and the turn is not marked complete.  On
success the checkpoint commits and the turn is marked complete. -/
def appendCheckpointDurable (ts : TurnState) (t : String) (blob : List Nat)
    (outcome : StorageOutcome) : Except RelayError Nat × TurnState :=
  match ts.store.beginAppend t with
  | .error e => (.error e, ts)
  | .ok s1 =>
    match outcome with
    | .failure => (.error .storageFailure, ts)
    | .ok =>
      let r := s1.commitAppend t blob
      (.ok r.1, { store := r.2, turnComplete := true })

/-- After a commit the latest checkpoint is the one just written, at
sequence max + 1. -/
theorem commitAppend_latest (s : StateStore) (t : String) (blob : List Nat) :
    (s.commitAppend t blob).2.latest_checkpoint t
      = some ⟨s.maxSequence t + 1, blob, checkpointDigest blob⟩ := by
  simp [StateStore.commitAppend, StateStore.latest_checkpoint,
    checkpoints_cons_self]

/-- C5: a `StorageFailure` during checkpoint append surfaces the error,
leaves the turn unmarked and the whole state unchanged — in particular
the latest committed checkpoint — so that once storage recovers the same
append succeeds at the next sequence number and completes the turn. -/
theorem C5_storage_failure_aborts (ts : TurnState) (t : String)
    (blob : List Nat) (hwf : wfLog (ts.store.checkpoints t))
    (hfree : t ∉ ts.store.locks) (hturn : ts.turnComplete = false) :
    appendCheckpointDurable ts t blob .failure = (.error .storageFailure, ts)
    ∧ (appendCheckpointDurable ts t blob .failure).2.turnComplete = false
    ∧ (appendCheckpointDurable ts t blob .failure).2.store.latest_checkpoint t
        = ts.store.latest_checkpoint t
    ∧ ∃ ts2, appendCheckpointDurable ts t blob .ok
          = (.ok ((ts.store.checkpoints t).length + 1), ts2)
        ∧ ts2.turnComplete = true
        ∧ ts2.store.latest_checkpoint t
            = some ⟨(ts.store.checkpoints t).length + 1, blob,
                checkpointDigest blob⟩ := by
  have hmax := maxSequence_eq_length ts.store t hwf
  have hfail : appendCheckpointDurable ts t blob .failure
      = (.error .storageFailure, ts) := by
    unfold appendCheckpointDurable StateStore.beginAppend
    rw [if_neg hfree]
  refine ⟨hfail, by rw [hfail]; exact hturn, by rw [hfail], ?_⟩
  refine ⟨⟨(StateStore.commitAppend ⟨ts.store.logs, t :: ts.store.locks⟩ t blob).2,
    true⟩, ?_, rfl, ?_⟩
  · unfold appendCheckpointDurable StateStore.beginAppend
    rw [if_neg hfree, ← hmax]
    rfl
  · rw [commitAppend_latest]
    have hsame : (⟨ts.store.logs, t :: ts.store.locks⟩ : StateStore).maxSequence t
        = ts.store.maxSequence t := rfl
    rw [hsame, hmax]

/-- Witness for C5: a fresh turn over an empty store. -/
theorem C5_storage_failure_aborts_witness :
    appendCheckpointDurable
        { store := { logs := [], locks := [] }, turnComplete := false }
        "T1" [7] .failure
      = (.error .storageFailure,
          { store := { logs := [], locks := [] }, turnComplete := false }) :=
  (C5_storage_failure_aborts
    { store := { logs := [], locks := [] }, turnComplete := false }
    "T1" [7] (by rfl) (by decide) rfl).1

/-- Modelled from the spec: resolution states of an `ApprovalRequest`
(§3, §4.4). -/
inductive Resolution where
  | PENDING
  | APPROVED
  | REJECTED
  | EXPIRED
  deriving Repr, DecidableEq

/-- Modelled from the spec: an external decision or deadline expiry (§3,
§4.4) — whichever arrives first resolves the request. -/
inductive Decision where
  | approved
  | rejected
  | expired
  deriving Repr, DecidableEq

/-- The resolution a decision writes. -/
def Decision.toResolution : Decision → Resolution
  | .approved => .APPROVED
  | .rejected => .REJECTED
  | .expired => .EXPIRED

/-- Modelled from the spec: an `ApprovalRequest` (§3), identified by
`(thread_id, checkpoint_sequence)`, with action description, deadline
and resolution. -/
structure ApprovalRequest where
  threadId : String
  checkpointSequence : Nat
  action : String
  deadline : Nat
  resolution : Resolution
  deriving Repr, DecidableEq

/-- Modelled from the spec: the Interrupt/Approval Coordinator's record
set (§4.4).  The coordinator is absent from the sources. -/
abbrev Coordinator := List ApprovalRequest

/-- Whether a record is the one identified by
`(thread_id, checkpoint_sequence)`. -/
def matchesKey (t : String) (n : Nat) (r : ApprovalRequest) : Bool :=
  r.threadId == t && r.checkpointSequence == n

/-- The request identified by `(thread_id, checkpoint_sequence)`. -/
def findRequest (t : String) (n : Nat) : Coordinator → Option ApprovalRequest
  | [] => none
  | q :: rest => if matchesKey t n q then some q else findRequest t n rest

/-- Writing a resolution into the identified request's record. -/
def updateResolution (t : String) (n : Nat) (res : Resolution) :
    Coordinator → Coordinator
  | [] => []
  | q :: rest =>
    (if matchesKey t n q then { q with resolution := res } else q)
      :: updateResolution t n res rest

/-- Modelled from the spec: `resolve(thread_id, sequence, decision)`
(§4.4): `NotFoundError` when no request matches, `ConflictError` when
the request is already resolved; otherwise the decision is recorded —
first writer wins. -/
def resolve (c : Coordinator) (t : String) (n : Nat) (d : Decision) :
    Except RelayError Coordinator :=
  match findRequest t n c with
  | none => .error .notFoundError
  | some r =>
    if r.resolution = .PENDING
    then .ok (updateResolution t n d.toResolution c)
    else .error .conflictError

/-- A run of `resolve` calls racing for one request: how many succeed,
and the final coordinator state (a failed call leaves the state
unchanged). -/
def resolveRun (t : String) (n : Nat) :
    Coordinator → List Decision → Nat × Coordinator
  | c, [] => (0, c)
  | c, d :: ds =>
    match resolve c t n d with
    | .ok c2 =>
      let rest := resolveRun t n c2 ds
      (rest.1 + 1, rest.2)
    | .error _ => resolveRun t n c ds

/-- Updating the identified request rewrites exactly its resolution. -/
theorem findRequest_update (c : Coordinator) (t : String) (n : Nat)
    (r : ApprovalRequest) (res : Resolution)
    (h : findRequest t n c = some r) :
    findRequest t n (updateResolution t n res c)
      = some { r with resolution := res } := by
  induction c with
  | nil => simp [findRequest] at h
  | cons a l ih =>
    by_cases ha : matchesKey t n a = true
    · rw [findRequest, if_pos ha] at h
      have har : a = r := by injection h
      subst har
      rw [updateResolution, if_pos ha, findRequest,
        if_pos (show matchesKey t n { a with resolution := res } = true from ha)]
    · rw [findRequest, if_neg ha] at h
      rw [updateResolution, if_neg ha, findRequest, if_neg ha]
      exact ih h

/-- Once the identified request is resolved, no call of a `resolve` run
for it succeeds. -/
theorem resolveRun_resolved (t : String) (n : Nat) (ds : List Decision) :
    ∀ c : Coordinator,
      (∀ r2, findRequest t n c = some r2 → r2.resolution ≠ .PENDING) →
      (resolveRun t n c ds).1 = 0 := by
  induction ds with
  | nil =>
    intro c h
    rfl
  | cons d ds ih =>
    intro c h
    rw [resolveRun]
    have herr : ∃ e, resolve c t n d = .error e := by
      rcases hf : findRequest t n c with _ | r2
      · exact ⟨.notFoundError, by simp [resolve, hf]⟩
      · exact ⟨.conflictError, by simp [resolve, hf, h r2 hf]⟩
    rcases herr with ⟨e, he⟩
    rw [he]
    exact ih c h

/-- C3: a `PENDING` request leaves `PENDING` exactly once — the first
decision to arrive is recorded (never `PENDING` again), every later
`resolve` for the same `(thread_id, checkpoint_sequence)` fails with
`ConflictError`, and over any race of `resolve` calls exactly one
succeeds. -/
theorem C3_resolve_exactly_once (c : Coordinator) (t : String) (n : Nat)
    (d : Decision) (r : ApprovalRequest)
    (hfind : findRequest t n c = some r)
    (hpend : r.resolution = .PENDING) :
    resolve c t n d = .ok (updateResolution t n d.toResolution c)
    ∧ findRequest t n (updateResolution t n d.toResolution c)
        = some { r with resolution := d.toResolution }
    ∧ d.toResolution ≠ .PENDING
    ∧ (∀ d2, resolve (updateResolution t n d.toResolution c) t n d2
        = .error .conflictError)
    ∧ ∀ ds : List Decision, (resolveRun t n c (d :: ds)).1 = 1 := by
  have hok : resolve c t n d = .ok (updateResolution t n d.toResolution c) := by
    simp [resolve, hfind, hpend]
  have hfound := findRequest_update c t n r d.toResolution hfind
  have hnp : d.toResolution ≠ Resolution.PENDING := by
    cases d <;> simp [Decision.toResolution]
  have hresolved : ∀ r2,
      findRequest t n (updateResolution t n d.toResolution c) = some r2 →
      r2.resolution ≠ .PENDING := by
    intro r2 hr2
    rw [hfound] at hr2
    have heq : ({ r with resolution := d.toResolution } : ApprovalRequest) = r2 := by
      injection hr2
    rw [← heq]
    exact hnp
  refine ⟨hok, hfound, hnp, ?_, ?_⟩
  · intro d2
    simp [resolve, hfound, hnp]
  · intro ds
    rw [resolveRun, hok]
    simp only [resolveRun_resolved t n ds _ hresolved]

/-- Witness for C3: a coordinator holding the single pending request
(T1, 4); approval succeeds once, a later rejection conflicts, and a race
of three decisions has exactly one winner. -/
theorem C3_resolve_exactly_once_witness :
    resolve [⟨"T1", 4, "book flight XYZ", 100, .PENDING⟩] "T1" 4 .approved
      = .ok [⟨"T1", 4, "book flight XYZ", 100, .APPROVED⟩]
    ∧ resolve [⟨"T1", 4, "book flight XYZ", 100, .APPROVED⟩] "T1" 4 .rejected
      = .error .conflictError
    ∧ (resolveRun "T1" 4 [⟨"T1", 4, "book flight XYZ", 100, .PENDING⟩]
        [.approved, .rejected, .expired]).1 = 1 :=
  ⟨(C3_resolve_exactly_once [⟨"T1", 4, "book flight XYZ", 100, .PENDING⟩]
      "T1" 4 .approved ⟨"T1", 4, "book flight XYZ", 100, .PENDING⟩
      (by rfl) rfl).1,
    (C3_resolve_exactly_once [⟨"T1", 4, "book flight XYZ", 100, .PENDING⟩]
      "T1" 4 .approved ⟨"T1", 4, "book flight XYZ", 100, .PENDING⟩
      (by rfl) rfl).2.2.2.1 .rejected,
    (C3_resolve_exactly_once [⟨"T1", 4, "book flight XYZ", 100, .PENDING⟩]
      "T1" 4 .approved ⟨"T1", 4, "book flight XYZ", 100, .PENDING⟩
      (by rfl) rfl).2.2.2.2 [.rejected, .expired]⟩
